import Mathlib

/-!
Verification development for the MEK-AI backend's conversation/agent
orchestration core (`app/services/memory/conversation_memory.py`,
`app/services/ai/chat_service.py`, `app/services/ai/model_manager.py`,
`app/services/ai/chat_deepseek.py`, `app/agents/*`).

The Python code is shallowly embedded: each Python function becomes an
executable Lean definition over explicit state; `datetime.now()` and
`uuid.uuid4()` become explicit `Nat` / `String` parameters; Python
exceptions become `Except`; Python dicts become insertion-ordered
association lists.  Python call-site / signature mismatches (which raise
`TypeError` at run time) are modelled by recording the declared parameter
names / positional arity of the callee and the arguments of the call, and
checking them the way the Python calling convention does.
-/

/-- Python slice `xs[s:]` for an integer start index `s`:
a non-negative start drops the first `s` elements; a negative start keeps
the last `-s` elements (clamped), i.e. drops `max 0 (len + s)` elements.
Note `xs[-0:]` is `xs[0:]`, the whole list. -/
def pySliceFrom (xs : List α) (s : Int) : List α :=
  if 0 ≤ s then xs.drop s.toNat else xs.drop ((xs.length : Int) + s).toNat

/-- Python `dict` update `d[k] = v`: replace in place if the key exists
(keeping insertion order), else append at the end. -/
def setAssoc (l : List (String × α)) (k : String) (v : α) : List (String × α) :=
  match l with
  | [] => [(k, v)]
  | (k', v') :: t => if k' == k then (k', v) :: t else (k', v') :: setAssoc t k v

/-- Python keyword-argument check: a call with keyword arguments `kwargs`
binds only if every keyword is a declared parameter name of the callee
(none of the modelled methods take `**kwargs`); otherwise Python raises
`TypeError: got an unexpected keyword argument`. -/
def pyAcceptsKeywords (params : List String) (kwargs : List String) : Bool :=
  kwargs.all (fun k => params.contains k)

/-- Python positional-argument check for a method whose (non-self)
parameters all lack defaults: the call binds only if the argument count
equals the parameter count; otherwise Python raises `TypeError`. -/
def pyPositionalOk (paramCount argCount : Nat) : Bool :=
  argCount == paramCount

/- ===== conversation_memory.py : data model ===== -/

/-- One entry of `ConversationState.messages`: the dict
`{"role": .., "content": .., "timestamp": .., "metadata": ..}` built by
`create_conversation` / `add_message`. -/
structure MsgRecord where
  role : String
  content : String
  timestamp : Nat
  metadata : List (String × String)
deriving Repr, DecidableEq

/-- LangChain message objects stored in `memory.chat_memory.messages`. -/
inductive LCMessage where
  | human (content : String)
  | ai (content : String)
  | system (content : String)
deriving Repr, DecidableEq

/-- The role string a LangChain message corresponds to (the mapping used
by `add_message` when constructing, and by `ChatDeepSeek._convert_message_to_dict`
when serialising). -/
def LCMessage.roleName : LCMessage → String
  | .human _ => "user"
  | .ai _ => "assistant"
  | .system _ => "system"

/-- Model of `ConversationState` dataclass. -/
structure ConversationState where
  conversation_id : String
  employee_id : String
  user_id : Option String
  organization_id : Option String
  messages : List MsgRecord
  created_at : Nat
  updated_at : Nat
  metadata : List (String × String)
deriving Repr, DecidableEq

/-- The mutable state of a `ConversationMemoryManager` instance:
`_conversations`, `_memories` (both keyed by conversation id, in sync),
and the `max_history` bound (default 20 for the module-level singleton). -/
structure MemoryState where
  conversations : List (String × ConversationState)
  memories : List (String × List LCMessage)
  max_history : Nat
deriving Repr, DecidableEq

/-- The role dispatch of `add_message`: `"user"`/`"assistant"`/`"system"`
construct the corresponding LangChain message; any other role is rejected. -/
def roleToLC (role content : String) : Option LCMessage :=
  if role == "user" then some (.human content)
  else if role == "assistant" then some (.ai content)
  else if role == "system" then some (.system content)
  else none

/-- Model of `_sync_memory_from_state`: rebuild the LangChain memory from the
stored records; records whose role is not user/assistant/system are
skipped (the `if/elif` chain has no else branch). -/
def syncMemoryFromState (messages : List MsgRecord) : List LCMessage :=
  messages.filterMap (fun m => roleToLC m.role m.content)

/-- Model of `create_conversation`: generates a fresh conversation id (modelled as
the explicit argument `new_id`), stores a new `ConversationState` and a
new LangChain memory, seeding both with the optional initial system
message.  `now` models `datetime.now()`. -/
def create_conversation (st : MemoryState) (new_id : String) (now : Nat)
    (employee_id : String) (user_id organization_id : Option String)
    (initial_system_message : Option String)
    (metadata : Option (List (String × String))) : String × MemoryState :=
  let baseMsgs : List MsgRecord :=
    match initial_system_message with
    | some m => [{ role := "system", content := m, timestamp := now, metadata := [] }]
    | none => []
  let baseMem : List LCMessage :=
    match initial_system_message with
    | some m => [.system m]
    | none => []
  let cs : ConversationState :=
    { conversation_id := new_id, employee_id := employee_id,
      user_id := user_id, organization_id := organization_id,
      messages := baseMsgs, created_at := now, updated_at := now,
      metadata := metadata.getD [] }
  (new_id,
    { st with conversations := setAssoc st.conversations new_id cs,
              memories := setAssoc st.memories new_id baseMem })

/-- The trimming step of `add_message` (conversation_memory.py lines
178-185): keep every `"system"`-role record, plus the Python slice
`other_messages[-(max_history - len(system_messages)):]` of the rest. -/
def trimmedMessages (cap : Nat) (msgs : List MsgRecord) : List MsgRecord :=
  let system_messages := msgs.filter (fun m => m.role == "system")
  let other_messages := msgs.filter (fun m => m.role != "system")
  system_messages ++ pySliceFrom other_messages
    (-((cap : Int) - (system_messages.length : Int)))

/-- Model of `add_message`: returns `False` (state untouched) if the conversation
id is unknown or the role is not user/assistant/system; otherwise appends
the message to the LangChain memory and to the state's record list,
updates `updated_at`, and — when the record count exceeds `max_history` —
applies `trimmedMessages` and rebuilds the memory from the trimmed
records (`_sync_memory_from_state`). -/
def add_message (st : MemoryState) (now : Nat)
    (conversation_id role content : String)
    (metadata : Option (List (String × String))) : Bool × MemoryState :=
  match st.conversations.lookup conversation_id with
  | none => (false, st)
  | some cs =>
    match roleToLC role content with
    | none => (false, st)
    | some lcMsg =>
      let mem := (st.memories.lookup conversation_id).getD []
      let mem1 := mem ++ [lcMsg]
      let rec0 : MsgRecord :=
        { role := role, content := content, timestamp := now,
          metadata := metadata.getD [] }
      let msgs1 := cs.messages ++ [rec0]
      if msgs1.length > st.max_history then
        let msgs2 := trimmedMessages st.max_history msgs1
        let cs2 := { cs with messages := msgs2, updated_at := now }
        (true,
          { st with conversations := setAssoc st.conversations conversation_id cs2,
                    memories := setAssoc st.memories conversation_id
                      (syncMemoryFromState msgs2) })
      else
        let cs2 := { cs with messages := msgs1, updated_at := now }
        (true,
          { st with conversations := setAssoc st.conversations conversation_id cs2,
                    memories := setAssoc st.memories conversation_id mem1 })

/-- Model of `get_conversation_state`. -/
def get_conversation_state (st : MemoryState) (conversation_id : String) :
    Option ConversationState :=
  st.conversations.lookup conversation_id

/-- Model of `get_conversation_history`: `[]` for an unknown id; with `limit`
truthy (`not None and != 0`) returns the Python slice
`messages[-limit:]`, else the whole record list. -/
def get_conversation_history (st : MemoryState) (conversation_id : String)
    (limit : Option Int) : List MsgRecord :=
  match st.conversations.lookup conversation_id with
  | none => []
  | some cs =>
    match limit with
    | none => cs.messages
    | some l => if l == 0 then cs.messages else pySliceFrom cs.messages (-l)

/-- Model of `get_conversation_messages`: `[]` for an unknown id; with
`limit and limit > 0` returns the slice `messages[-limit:]` of the
LangChain memory, else all of it. -/
def get_conversation_messages (st : MemoryState) (conversation_id : String)
    (limit : Option Int) : List LCMessage :=
  match st.memories.lookup conversation_id with
  | none => []
  | some mem =>
    match limit with
    | none => mem
    | some l => if 0 < l then pySliceFrom mem (-l) else mem

/-- The role set of the data model's `MessageRole` enum
(`app/config/constants.py`). -/
def messageRoleEnum : List String := ["system", "user", "assistant", "tool"]

/- ===== shared lemmas about the embedding ===== -/

theorem lookup_setAssoc (l : List (String × α)) (k : String) (v : α) :
    (setAssoc l k v).lookup k = some v := by
  induction l with
  | nil => simp [setAssoc, List.lookup]
  | cons p t ih =>
    rcases p with ⟨k', v'⟩
    by_cases hk : k' = k
    · subst hk
      simp [setAssoc, List.lookup]
    · have hbf : (k' == k) = false := by simp [hk]
      have hbf' : (k == k') = false := by simp [Ne.symm hk]
      simp [setAssoc, hbf, List.lookup, hbf', ih]

/-- Any valid role yields a LangChain message whose role name matches. -/
theorem roleToLC_of_valid (role content : String)
    (h : role = "user" ∨ role = "assistant" ∨ role = "system") :
    ∃ lc, roleToLC role content = some lc ∧ lc.roleName = role := by
  rcases h with h | h | h <;> subst h <;>
    exact ⟨_, rfl, rfl⟩

theorem roleToLC_roleName (role content : String) (lc : LCMessage)
    (h : roleToLC role content = some lc) : lc.roleName = role := by
  unfold roleToLC at h
  split_ifs at h with h1 h2 h3 <;> simp_all [LCMessage.roleName] <;>
    (subst h; rfl)

theorem syncMemoryFromState_append (a b : List MsgRecord) :
    syncMemoryFromState (a ++ b) = syncMemoryFromState a ++ syncMemoryFromState b := by
  simp [syncMemoryFromState, List.filterMap_append]

theorem syncMemoryFromState_roleNames (msgs : List MsgRecord)
    (h : ∀ m ∈ msgs, m.role = "user" ∨ m.role = "assistant" ∨ m.role = "system") :
    (syncMemoryFromState msgs).map LCMessage.roleName = msgs.map MsgRecord.role := by
  induction msgs with
  | nil => rfl
  | cons m t ih =>
    obtain ⟨lc, hlc, hrn⟩ := roleToLC_of_valid m.role m.content (h m (by simp))
    have ht := ih (fun x hx => h x (by simp [hx]))
    simp only [syncMemoryFromState, List.filterMap_cons, hlc, List.map_cons, hrn]
    simp only [syncMemoryFromState] at ht
    rw [ht]

/-- Running `add_message` on a known conversation with a valid role, when the new
record count stays within `max_history`: no trimming happens, and both the
record list and the LangChain memory are extended by one entry. -/
theorem add_message_no_trim
    (st : MemoryState) (now : Nat) (cid role content : String)
    (md : Option (List (String × String)))
    (cs : ConversationState) (lc : LCMessage)
    (hcs : st.conversations.lookup cid = some cs)
    (hlc : roleToLC role content = some lc)
    (hlen : cs.messages.length + 1 ≤ st.max_history) :
    add_message st now cid role content md =
      (true,
        { st with
          conversations := setAssoc st.conversations cid
            { cs with
              messages := cs.messages ++
                [{ role := role, content := content, timestamp := now,
                   metadata := md.getD [] }],
              updated_at := now },
          memories := setAssoc st.memories cid
            (((st.memories.lookup cid).getD []) ++ [lc]) }) := by
  have hnotrim : ¬ (cs.messages ++
      [({ role := role, content := content, timestamp := now,
          metadata := md.getD [] } : MsgRecord)]).length > st.max_history := by
    simp only [List.length_append, List.length_cons, List.length_nil]
    omega
  simp only [add_message, hcs, hlc, hnotrim, if_false, ite_false]

/-- Running `add_message` on a known conversation with a valid role, when the new
record count exceeds `max_history`: the trim runs. -/
theorem add_message_trim
    (st : MemoryState) (now : Nat) (cid role content : String)
    (md : Option (List (String × String)))
    (cs : ConversationState) (lc : LCMessage)
    (hcs : st.conversations.lookup cid = some cs)
    (hlc : roleToLC role content = some lc)
    (hgt : st.max_history < cs.messages.length + 1) :
    add_message st now cid role content md =
      (true,
        { st with
          conversations := setAssoc st.conversations cid
            { cs with
              messages := trimmedMessages st.max_history (cs.messages ++
                [{ role := role, content := content, timestamp := now,
                   metadata := md.getD [] }]),
              updated_at := now },
          memories := setAssoc st.memories cid
            (syncMemoryFromState (trimmedMessages st.max_history (cs.messages ++
              [{ role := role, content := content, timestamp := now,
                 metadata := md.getD [] }]))) }) := by
  have htrim : (cs.messages ++
      [({ role := role, content := content, timestamp := now,
          metadata := md.getD [] } : MsgRecord)]).length > st.max_history := by
    simp only [List.length_append, List.length_cons, List.length_nil]
    omega
  simp only [add_message, hcs, hlc, htrim, if_true, ite_true]

theorem pySliceFrom_length (xs : List α) (s : Int) :
    (pySliceFrom xs s).length =
      xs.length - (if 0 ≤ s then s.toNat else ((xs.length : Int) + s).toNat) := by
  unfold pySliceFrom
  split <;> simp [List.length_drop]

/-- When fewer than `cap` of the records are system-role, the trim result
is within the cap. -/
theorem trimmedMessages_length (cap : Nat) (msgs : List MsgRecord)
    (hsys : (msgs.filter (fun m => m.role == "system")).length < cap) :
    (trimmedMessages cap msgs).length ≤ cap := by
  unfold trimmedMessages
  set s := (msgs.filter (fun m => m.role == "system")).length with hs
  set other := msgs.filter (fun m => m.role != "system") with ho
  have hneg : ¬ (0 ≤ -((cap : Int) - (s : Int))) := by omega
  simp only [List.length_append, pySliceFrom_length, if_neg hneg]
  omega

/-- Every system-role record survives the trim. -/
theorem mem_trimmedMessages_of_system (cap : Nat) (msgs : List MsgRecord)
    (m : MsgRecord) (hm : m ∈ msgs) (hrole : m.role = "system") :
    m ∈ trimmedMessages cap msgs := by
  unfold trimmedMessages
  refine List.mem_append_left _ ?_
  simp [List.mem_filter, hm, hrole]

/-- C2, amended: after an `add_message` on a known conversation with a
valid role, provided fewer than `max_history` of the resulting records are
system-role, every system-role record (old or new) is still present and
the retained count does not exceed `max_history`.  (Without that proviso
the cap can be exceeded: see the counterexample.) -/
theorem add_message_trim_invariant
    (st : MemoryState) (now : Nat) (cid role content : String)
    (md : Option (List (String × String))) (cs : ConversationState)
    (hcs : st.conversations.lookup cid = some cs)
    (hrole : role = "user" ∨ role = "assistant" ∨ role = "system")
    (hsys : (cs.messages.filter (fun m => m.role == "system")).length
        + (if role = "system" then 1 else 0) < st.max_history) :
    (get_conversation_history ((add_message st now cid role content md).2) cid none).length
        ≤ st.max_history
    ∧ (∀ m ∈ cs.messages, m.role = "system" →
        m ∈ get_conversation_history ((add_message st now cid role content md).2) cid none)
    ∧ (role = "system" →
        ({ role := role, content := content, timestamp := now,
           metadata := md.getD [] } : MsgRecord)
          ∈ get_conversation_history ((add_message st now cid role content md).2) cid none) := by
  obtain ⟨lc, hlc, -⟩ := roleToLC_of_valid role content hrole
  set rec0 : MsgRecord :=
    { role := role, content := content, timestamp := now, metadata := md.getD [] } with hrec
  have hsysApp : ((cs.messages ++ [rec0]).filter (fun m => m.role == "system")).length
      < st.max_history := by
    have : (List.filter (fun m => m.role == "system") [rec0]).length
        = (if role = "system" then 1 else 0) := by
      by_cases h : role = "system" <;> simp [hrec, h]
    simp only [List.filter_append, List.length_append, this]
    omega
  by_cases hgt : st.max_history < cs.messages.length + 1
  · rw [add_message_trim st now cid role content md cs lc hcs hlc hgt]
    have hhist : get_conversation_history
        ({ st with
          conversations := setAssoc st.conversations cid
            { cs with
              messages := trimmedMessages st.max_history (cs.messages ++ [rec0]),
              updated_at := now },
          memories := setAssoc st.memories cid
            (syncMemoryFromState (trimmedMessages st.max_history (cs.messages ++ [rec0]))) })
        cid none = trimmedMessages st.max_history (cs.messages ++ [rec0]) := by
      simp [get_conversation_history, lookup_setAssoc]
    rw [hhist]
    refine ⟨trimmedMessages_length _ _ hsysApp, ?_, ?_⟩
    · intro m hm hmrole
      exact mem_trimmedMessages_of_system _ _ m (List.mem_append_left _ hm) hmrole
    · intro hroleS
      exact mem_trimmedMessages_of_system _ _ rec0 (by simp) (by simp [hrec, hroleS])
  · have hle : cs.messages.length + 1 ≤ st.max_history := by omega
    rw [add_message_no_trim st now cid role content md cs lc hcs hlc hle]
    have hhist : get_conversation_history
        ({ st with
          conversations := setAssoc st.conversations cid
            { cs with messages := cs.messages ++ [rec0], updated_at := now },
          memories := setAssoc st.memories cid
            (((st.memories.lookup cid).getD []) ++ [lc]) })
        cid none = cs.messages ++ [rec0] := by
      simp [get_conversation_history, lookup_setAssoc]
    rw [hhist]
    refine ⟨by simp only [List.length_append, List.length_cons, List.length_nil]; omega,
      ?_, ?_⟩
    · intro m hm _
      exact List.mem_append_left _ hm
    · intro _
      simp

/- ===== C4: ordering of history and model-message consistency ===== -/

/-- One `add_message(conversation_id, role, content, metadata)` call, with
its `datetime.now()` value. -/
structure AddCall where
  role : String
  content : String
  now : Nat
  metadata : Option (List (String × String))
deriving Repr, DecidableEq

/-- The record that `add_message` stores for a call. -/
def callRecord (c : AddCall) : MsgRecord :=
  { role := c.role, content := c.content, timestamp := c.now,
    metadata := c.metadata.getD [] }

/-- Run a sequence of `add_message` calls on one conversation. -/
def runAddCalls (st : MemoryState) (cid : String) (calls : List AddCall) :
    MemoryState :=
  calls.foldl (fun s c => (add_message s c.now cid c.role c.content c.metadata).2) st

theorem runAddCalls_state (cid : String) (calls : List AddCall) :
    ∀ (st : MemoryState) (cs : ConversationState),
    st.conversations.lookup cid = some cs →
    st.memories.lookup cid = some (syncMemoryFromState cs.messages) →
    (∀ c ∈ calls, c.role = "user" ∨ c.role = "assistant" ∨ c.role = "system") →
    cs.messages.length + calls.length ≤ st.max_history →
    ∃ cs', (runAddCalls st cid calls).conversations.lookup cid = some cs'
      ∧ cs'.messages = cs.messages ++ calls.map callRecord
      ∧ (runAddCalls st cid calls).memories.lookup cid
          = some (syncMemoryFromState cs'.messages) := by
  induction calls with
  | nil =>
    intro st cs hcs hmem _ _
    exact ⟨cs, hcs, by simp, hmem⟩
  | cons c rest ih =>
    intro st cs hcs hmem hroles hlen
    obtain ⟨lc, hlc, -⟩ := roleToLC_of_valid c.role c.content (hroles c (by simp))
    have hlen1 : cs.messages.length + 1 ≤ st.max_history := by
      simp only [List.length_cons] at hlen
      omega
    have hstep := add_message_no_trim st c.now cid c.role c.content c.metadata
      cs lc hcs hlc hlen1
    have hrun : runAddCalls st cid (c :: rest)
        = runAddCalls ((add_message st c.now cid c.role c.content c.metadata).2)
            cid rest := rfl
    rw [hrun, hstep]
    set st1 : MemoryState :=
      { st with
        conversations := setAssoc st.conversations cid
          { cs with messages := cs.messages ++ [callRecord c], updated_at := c.now },
        memories := setAssoc st.memories cid
          (((st.memories.lookup cid).getD []) ++ [lc]) } with hst1
    have hsync1 : syncMemoryFromState (cs.messages ++ [callRecord c])
        = syncMemoryFromState cs.messages ++ [lc] := by
      rw [syncMemoryFromState_append]
      simp [syncMemoryFromState, callRecord, hlc]
    have hcs1 : st1.conversations.lookup cid =
        some { cs with messages := cs.messages ++ [callRecord c], updated_at := c.now } := by
      simp [hst1, lookup_setAssoc]
    have hmem1 : st1.memories.lookup cid
        = some (syncMemoryFromState (cs.messages ++ [callRecord c])) := by
      simp only [hst1, lookup_setAssoc, hmem, hsync1, Option.getD_some]
    obtain ⟨cs', h1, h2, h3⟩ := ih st1
      { cs with messages := cs.messages ++ [callRecord c], updated_at := c.now }
      hcs1 hmem1 (fun x hx => hroles x (by simp [hx]))
      (by simp only [hst1, List.length_append, List.length_cons, List.length_nil]
          simp only [List.length_cons] at hlen; omega)
    refine ⟨cs', h1, ?_, h3⟩
    simp only [h2, List.map_cons, List.append_assoc, List.singleton_append]

/-- C4: a run of successful `add_message` calls on one known conversation
that stays within `max_history` leaves `get_conversation_history`
returning the appended records in append order, and
`get_conversation_messages` returning the same count and role sequence. -/
theorem history_ordering_p1
    (st : MemoryState) (cid : String) (cs : ConversationState)
    (calls : List AddCall)
    (hcs : st.conversations.lookup cid = some cs)
    (hmem : st.memories.lookup cid = some (syncMemoryFromState cs.messages))
    (h0 : ∀ m ∈ cs.messages, m.role = "user" ∨ m.role = "assistant" ∨ m.role = "system")
    (hroles : ∀ c ∈ calls, c.role = "user" ∨ c.role = "assistant" ∨ c.role = "system")
    (hlen : cs.messages.length + calls.length ≤ st.max_history) :
    get_conversation_history (runAddCalls st cid calls) cid none
        = cs.messages ++ calls.map callRecord
    ∧ (get_conversation_messages (runAddCalls st cid calls) cid none).length
        = (get_conversation_history (runAddCalls st cid calls) cid none).length
    ∧ (get_conversation_messages (runAddCalls st cid calls) cid none).map LCMessage.roleName
        = (get_conversation_history (runAddCalls st cid calls) cid none).map MsgRecord.role := by
  obtain ⟨cs', h1, h2, h3⟩ := runAddCalls_state cid calls st cs hcs hmem hroles hlen
  have hhist : get_conversation_history (runAddCalls st cid calls) cid none
      = cs'.messages := by
    simp [get_conversation_history, h1]
  have hmsgs : get_conversation_messages (runAddCalls st cid calls) cid none
      = syncMemoryFromState cs'.messages := by
    simp [get_conversation_messages, h3]
  have hvalid : ∀ m ∈ cs'.messages,
      m.role = "user" ∨ m.role = "assistant" ∨ m.role = "system" := by
    intro m hm
    rw [h2] at hm
    rcases List.mem_append.1 hm with h | h
    · exact h0 m h
    · obtain ⟨c, hc, hrc⟩ := List.mem_map.1 h
      have := hroles c hc
      simp only [← hrc, callRecord]
      exact this
  have hroleSeq := syncMemoryFromState_roleNames cs'.messages hvalid
  refine ⟨by rw [hhist, h2], ?_, by rw [hhist, hmsgs]; exact hroleSeq⟩
  rw [hhist, hmsgs]
  have := congrArg List.length hroleSeq
  simpa using this

/- ===== C6 / C10: add_message contract, limit = 0 ===== -/

/-- C6, amended: `add_message` returns `False` without touching state for
an unknown conversation_id and also for role `"tool"` (only
user/assistant/system are dispatched); for a known id and a role in
{user, assistant, system} it returns `True`, sets `updated_at`, and — when
the result stays within `max_history` — the stored record list becomes
the old list with the new record appended. -/
theorem add_message_contract
    (st : MemoryState) (now : Nat) (cid role content : String)
    (md : Option (List (String × String))) :
    (st.conversations.lookup cid = none →
      add_message st now cid role content md = (false, st))
    ∧ (role = "tool" → add_message st now cid role content md = (false, st))
    ∧ (∀ cs, st.conversations.lookup cid = some cs →
        (role = "user" ∨ role = "assistant" ∨ role = "system") →
        (add_message st now cid role content md).1 = true
        ∧ ((get_conversation_state ((add_message st now cid role content md).2) cid).map
            ConversationState.updated_at) = some now
        ∧ (cs.messages.length + 1 ≤ st.max_history →
            get_conversation_history ((add_message st now cid role content md).2) cid none
              = cs.messages ++
                  [{ role := role, content := content, timestamp := now,
                     metadata := md.getD [] }])) := by
  refine ⟨?_, ?_, ?_⟩
  · intro h
    simp [add_message, h]
  · intro h
    subst h
    cases hl : st.conversations.lookup cid with
    | none => simp [add_message, hl]
    | some cs => simp [add_message, hl, roleToLC]
  · intro cs hcs hrole
    obtain ⟨lc, hlc, -⟩ := roleToLC_of_valid role content hrole
    by_cases hgt : st.max_history < cs.messages.length + 1
    · rw [add_message_trim st now cid role content md cs lc hcs hlc hgt]
      refine ⟨rfl, by simp [get_conversation_state, lookup_setAssoc], ?_⟩
      intro hle
      omega
    · have hle : cs.messages.length + 1 ≤ st.max_history := by omega
      rw [add_message_no_trim st now cid role content md cs lc hcs hlc hle]
      exact ⟨rfl, by simp [get_conversation_state, lookup_setAssoc],
        fun _ => by simp [get_conversation_history, lookup_setAssoc]⟩

/-- C10: for a known conversation, `limit = 0` is falsy in the Python
`if limit:` / `if limit and limit > 0:` guards, so both getters return
the entire stored list — identical to passing no limit at all. -/
theorem limit_zero_returns_all
    (st : MemoryState) (cid : String)
    (cs : ConversationState) (mem : List LCMessage)
    (hcs : st.conversations.lookup cid = some cs)
    (hmem : st.memories.lookup cid = some mem) :
    get_conversation_history st cid (some 0) = cs.messages
    ∧ get_conversation_history st cid (some 0) = get_conversation_history st cid none
    ∧ get_conversation_messages st cid (some 0) = mem
    ∧ get_conversation_messages st cid (some 0) = get_conversation_messages st cid none := by
  refine ⟨?_, ?_, ?_, ?_⟩ <;>
    simp [get_conversation_history, get_conversation_messages, hcs, hmem]

/- ===== concrete states for counterexamples and witnesses ===== -/

/-- Model of `ConversationMemoryManager()` with the default `max_history = 20`,
no conversations yet. -/
def mgrDefault : MemoryState := { conversations := [], memories := [], max_history := 20 }

/-- State after `create_conversation(employee_id="emp1")` returned `"c1"`. -/
def convKnown : MemoryState :=
  (create_conversation mgrDefault "c1" 0 "emp1" none none none none).2

/-- Model of `convKnown` after `add_message("c1", "system", "sys")`. -/
def convWithSystem : MemoryState :=
  (add_message convKnown 1 "c1" "system" "sys" none).2

/-- Model of `ConversationMemoryManager(max_history=1)`. -/
def capOne : MemoryState := { conversations := [], memories := [], max_history := 1 }

/-- Model of `capOne` after creating conversation `"c1"`. -/
def capOneConv : MemoryState :=
  (create_conversation capOne "c1" 0 "emp1" none none none none).2

/-- Model of `capOneConv` after `add_message("c1", "system", "instructions")`. -/
def capOneWithSystem : MemoryState :=
  (add_message capOneConv 1 "c1" "system" "instructions" none).2

/-- C2, counterexample: with `max_history = 1` and one stored system
message, a further successful `add_message` triggers the trim, yet the
retained count is 2 > 1 — the slice `other_messages[-0:]` keeps all
non-system messages, so the cap is exceeded. -/
theorem trim_cap_exceeded_cex :
    (add_message capOneWithSystem 2 "c1" "user" "hi" none).1 = true
    ∧ capOneWithSystem.max_history = 1
    ∧ ((get_conversation_history
          ((add_message capOneWithSystem 2 "c1" "user" "hi" none).2) "c1" none).filter
        (fun m => m.role == "system")).length = 1
    ∧ (get_conversation_history
        ((add_message capOneWithSystem 2 "c1" "user" "hi" none).2) "c1" none).length = 2
    ∧ ¬ ((get_conversation_history
        ((add_message capOneWithSystem 2 "c1" "user" "hi" none).2) "c1" none).length
          ≤ capOneWithSystem.max_history) := by
  decide

theorem add_message_trim_invariant_witness :
    (get_conversation_history ((add_message convWithSystem 2 "c1" "user" "hi" none).2)
        "c1" none).length ≤ convWithSystem.max_history
    ∧ ({ role := "system", content := "sys", timestamp := 1,
         metadata := [] } : MsgRecord)
        ∈ get_conversation_history ((add_message convWithSystem 2 "c1" "user" "hi" none).2)
            "c1" none := by
  have h := add_message_trim_invariant convWithSystem 2 "c1" "user" "hi" none
    _ rfl (Or.inl rfl) (by decide)
  exact ⟨h.1, h.2.1 _ (by decide) rfl⟩

/-- C6, counterexample: `"tool"` belongs to the data model's role enum and
`"c1"` is a known conversation, yet `add_message` with role `"tool"`
returns `False` and leaves the state unchanged (the claim says it should
append and return `True`). -/
theorem add_message_tool_role_cex :
    get_conversation_state convKnown "c1" ≠ none
    ∧ "tool" ∈ messageRoleEnum
    ∧ add_message convKnown 1 "c1" "tool" "result" none = (false, convKnown) := by
  decide

theorem add_message_contract_witness :
    (add_message convKnown 5 "missing" "user" "hi" none).1 = false
    ∧ (add_message convKnown 5 "c1" "user" "hi" none).1 = true
    ∧ ((get_conversation_state ((add_message convKnown 5 "c1" "user" "hi" none).2) "c1").map
        ConversationState.updated_at) = some 5
    ∧ get_conversation_history ((add_message convKnown 5 "c1" "user" "hi" none).2) "c1" none
        = [{ role := "user", content := "hi", timestamp := 5, metadata := [] }] := by
  have hmiss := (add_message_contract convKnown 5 "missing" "user" "hi" none).1 rfl
  have h := (add_message_contract convKnown 5 "c1" "user" "hi" none).2.2
    _ rfl (Or.inl rfl)
  refine ⟨by rw [hmiss], h.1, h.2.1, ?_⟩
  have := h.2.2 (by decide)
  simpa using this

theorem history_ordering_witness :
    get_conversation_history
        (runAddCalls convKnown "c1"
          [{ role := "user", content := "hi", now := 1, metadata := none },
           { role := "assistant", content := "hello", now := 2, metadata := none }])
        "c1" none
      = [{ role := "user", content := "hi", timestamp := 1, metadata := [] },
         { role := "assistant", content := "hello", timestamp := 2, metadata := [] }]
    ∧ (get_conversation_messages
        (runAddCalls convKnown "c1"
          [{ role := "user", content := "hi", now := 1, metadata := none },
           { role := "assistant", content := "hello", now := 2, metadata := none }])
        "c1" none).map LCMessage.roleName
      = (get_conversation_history
        (runAddCalls convKnown "c1"
          [{ role := "user", content := "hi", now := 1, metadata := none },
           { role := "assistant", content := "hello", now := 2, metadata := none }])
        "c1" none).map MsgRecord.role := by
  have h := history_ordering_p1 convKnown "c1" _
    [{ role := "user", content := "hi", now := 1, metadata := none },
     { role := "assistant", content := "hello", now := 2, metadata := none }]
    rfl rfl (by intro m hm; simp at hm) (by decide) (by decide)
  exact ⟨by simpa using h.1, h.2.2⟩

theorem limit_zero_witness :
    get_conversation_history convWithSystem "c1" (some 0)
        = get_conversation_history convWithSystem "c1" none
    ∧ get_conversation_messages convWithSystem "c1" (some 0)
        = get_conversation_messages convWithSystem "c1" none := by
  have h := limit_zero_returns_all convWithSystem "c1" _ _ rfl rfl
  exact ⟨h.2.1, h.2.2.2⟩

/- ===== chat_service.py / model_manager.py : data model ===== -/

/-- Python values as stored in the response dicts the chat service builds. -/
inductive PyVal where
  | str (s : String)
  | int (n : Int)
  | bool (b : Bool)
  | pynone
  | dict (fields : List (String × PyVal))

/-- A Python dict with string keys, in insertion order. -/
abbrev PyDict := List (String × PyVal)

def dictHasKey (d : PyDict) (k : String) : Bool :=
  d.any (fun p => p.1 == k)

def dictGet (d : PyDict) (k : String) : Option PyVal :=
  d.lookup k

/-- Look a key up inside the envelope's `"error"` sub-dict. -/
def errorField (d : PyDict) (k : String) : Option PyVal :=
  match dictGet d "error" with
  | some (.dict e) => dictGet e k
  | _ => none

/-- Model of `ChatService._create_validation_error`. -/
def create_validation_error (message : String) (now : Nat) : PyDict :=
  [("success", .bool false),
   ("error", .dict [("code", .str "VALIDATION_ERROR"), ("message", .str message)]),
   ("timestamp", .int now)]

/-- Model of `ChatService._create_agent_error`. -/
def create_agent_error (message : String) (now : Nat) : PyDict :=
  [("success", .bool false),
   ("error", .dict [("code", .str "AGENT_ERROR"), ("message", .str message)]),
   ("timestamp", .int now)]

/-- Model of `ChatService._create_error_response`: the `details` key is added into
the error sub-dict only when given, and `processing_time` is added at the
top level only when it is not `None`. -/
def create_error_response (error_message : String) (details : Option String)
    (processing_time : Option Nat) (now : Nat) : PyDict :=
  let errFields : List (String × PyVal) :=
    [("code", .str "CHAT_SERVICE_ERROR"), ("message", .str error_message)]
      ++ (match details with
          | some d => [("details", PyVal.str d)]
          | none => [])
  [("success", PyVal.bool false), ("error", PyVal.dict errFields),
   ("timestamp", PyVal.int now)]
    ++ (match processing_time with
        | some p => [("processing_time", PyVal.int p)]
        | none => [])

/-- Python exceptions raised inside the orchestration path. -/
inductive PyError where
  | typeError (msg : String)
  | valueError (msg : String)
  | notImplementedError (msg : String)
  | nameError (msg : String)
deriving Repr, DecidableEq

/-- Model of `str(e)` used by the generic exception handler. -/
def PyError.message : PyError → String
  | .typeError m => m
  | .valueError m => m
  | .notImplementedError m => m
  | .nameError m => m

/- Declared signatures vs call sites (the source of the TypeErrors). -/

/-- Parameter names of `ConversationMemoryManager.create_conversation`
(beyond `self`), from its `def` line. -/
def create_conversation_params : List String :=
  ["employee_id", "user_id", "organization_id", "initial_system_message", "metadata"]

/-- The keywords `ChatService._get_or_create_conversation` passes to
`create_conversation` (chat_service.py lines 188-198). -/
def chat_service_create_call_kwargs : List String :=
  ["db", "employee_id", "user_id", "organization_id", "metadata"]

/-- Model of `get_conversation_state(self, conversation_id)`: one positional
parameter beyond `self`. -/
def get_conversation_state_param_count : Nat := 1

/-- Model of `ChatService` calls `get_conversation_state(db, conversation_id)`
(chat_service.py line 173): two positional arguments. -/
def get_conversation_state_call_arg_count : Nat := 2

/-- Parameter names of `get_conversation_history` (beyond `self`). -/
def get_conversation_history_params : List String := ["conversation_id", "limit"]

/-- The keywords `_prepare_context` passes to `get_conversation_history`
(chat_service.py lines 361-365). -/
def prepare_context_history_call_kwargs : List String :=
  ["db", "conversation_id", "limit"]

/-- The `user_context` dict handed to the orchestrator. -/
structure UserContext where
  user_id : Option String
  organization_id : Option String
  permissions : List String
deriving Repr, DecidableEq

/-- The dict `_get_or_create_conversation` returns on success
(`found` models its `"exists"` key). -/
structure ConversationInfo where
  conversation_id : String
  found : Bool
  employee_id : String
deriving Repr, DecidableEq

/-- Model of `ChatService._get_or_create_conversation`.  The branch structure is
the source's; each manager call is guarded by the Python argument-binding
check for the arguments the source actually passes, because the in-memory
manager's methods do not take a `db` argument. -/
def get_or_create_conversation (mem : MemoryState) (fresh_id : String) (now : Nat)
    (conversation_id : Option String) (employee_id : String)
    (user_context : Option UserContext) :
    Except PyError (ConversationInfo × MemoryState) :=
  let createBranch : Except PyError (ConversationInfo × MemoryState) :=
    if pyAcceptsKeywords create_conversation_params chat_service_create_call_kwargs then
      let r := create_conversation mem fresh_id now employee_id
        (user_context.bind (fun uc => uc.user_id))
        (user_context.bind (fun uc => uc.organization_id)) none
        (some [("created_by_service", "chat_service"), ("employee_id", employee_id)])
      .ok ({ conversation_id := r.1, found := false, employee_id := employee_id }, r.2)
    else
      .error (.typeError "create_conversation() got an unexpected keyword argument db")
  let cidTruthy : Bool :=
    match conversation_id with
    | some c => c != ""
    | none => false
  if cidTruthy then
    if pyPositionalOk get_conversation_state_param_count
        get_conversation_state_call_arg_count then
      match get_conversation_state mem (conversation_id.getD "") with
      | some cs =>
        -- employee mismatch only logs a warning; the conversation is reused
        .ok ({ conversation_id := conversation_id.getD "", found := true,
               employee_id := cs.employee_id }, mem)
      | none => createBranch
    else
      .error (.typeError "get_conversation_state() takes 2 positional arguments but 3 were given")
  else createBranch

/- model_manager.py -/

/-- Model of `ModelProvider` enum values. -/
inductive ModelProvider where
  | openai
  | anthropic
  | gemini
  | localProvider
  | deepseek
deriving Repr, DecidableEq

/-- Model of `ModelProvider(provider)`: raises `ValueError` on an unknown value. -/
def ModelProvider.ofString (s : String) : Except PyError ModelProvider :=
  if s == "openai" then .ok .openai
  else if s == "anthropic" then .ok .anthropic
  else if s == "gemini" then .ok .gemini
  else if s == "local" then .ok .localProvider
  else if s == "deepseek" then .ok .deepseek
  else .error (.valueError (s ++ " is not a valid ModelProvider"))

/-- The process configuration (`app/config/settings.py`) consulted by the
model manager.  Key fields only; API keys are `Option` (unset = `None`). -/
structure Settings where
  OPENAI_API_KEY : Option String
  ANTHROPIC_API_KEY : Option String
  GEMINI_API_KEY : Option String
  DEEPSEEK_API_KEY : Option String
  DEEPSEEK_BASE_URL : Option String
  DEFAULT_MODEL_PROVIDER : ModelProvider
  DEFAULT_MODEL_NAME : String
  MODEL_TEMPERATURE : Rat
  MODEL_MAX_TOKENS : Int

/-- Python truthiness of an optional string (`if not api_key`). -/
def pyStrTruthy : Option String → Bool
  | some s => s != ""
  | none => false

/-- Model of `ModelManager._get_api_key`: no branch exists for `LOCAL`, so that
falls off the end and returns `None`. -/
def get_api_key (s : Settings) (p : ModelProvider) : Option String :=
  match p with
  | .openai => s.OPENAI_API_KEY
  | .anthropic => s.ANTHROPIC_API_KEY
  | .gemini => s.GEMINI_API_KEY
  | .deepseek => s.DEEPSEEK_API_KEY
  | .localProvider => none

/-- Model of `ModelConfig` dataclass. -/
structure ModelConfig where
  provider : ModelProvider
  model_name : String
  temperature : Rat
  max_tokens : Option Int
  api_key : Option String := none
  base_url : Option String := none
  timeout : Nat := 30
  max_retries : Nat := 3
deriving Repr, DecidableEq

/-- Model of `ModelManager.create_model_config_from_request`: request values win
when truthy (`provider`, `model_name`, `max_tokens` use `or`-style
fallbacks; `temperature` falls back only on `None`); an unknown provider
string raises `ValueError`. -/
def create_model_config_from_request (s : Settings)
    (provider model_name : Option String)
    (temperature : Option Rat) (max_tokens : Option Int) :
    Except PyError ModelConfig := do
  let final_provider ←
    match provider with
    | some p => if p == "" then pure s.DEFAULT_MODEL_PROVIDER else ModelProvider.ofString p
    | none => pure s.DEFAULT_MODEL_PROVIDER
  let final_model_name :=
    match model_name with
    | some m => if m == "" then s.DEFAULT_MODEL_NAME else m
    | none => s.DEFAULT_MODEL_NAME
  let final_temperature := temperature.getD s.MODEL_TEMPERATURE
  let final_max_tokens :=
    match max_tokens with
    | some t => if t == 0 then s.MODEL_MAX_TOKENS else t
    | none => s.MODEL_MAX_TOKENS
  pure { provider := final_provider, model_name := final_model_name,
         temperature := final_temperature, max_tokens := some final_max_tokens }

/-- Model of `ModelManager.validate_model_config`: requires an API key for the
provider, temperature within [0, 2], and — when `max_tokens` is truthy —
`max_tokens ≥ 1`. -/
def validate_model_config (s : Settings) (c : ModelConfig) : Bool :=
  if !(pyStrTruthy (get_api_key s c.provider)) then false
  else if decide (c.temperature < 0) || decide ((2 : Rat) < c.temperature) then false
  else if (match c.max_tokens with
           | some t => t != 0 && decide (t < 1)
           | none => false) then false
  else true

/-- The chat-model client objects `create_chat_model` can build. -/
inductive ChatModel where
  | chatOpenAI (model api_key : String) (base_url : Option String)
  | chatDeepSeek (model api_key base_url : String)
  | chatGoogle (model api_key : String)
deriving Repr, DecidableEq

/-- Model of `ChatDeepSeek.__init__`: force the base URL to end in `/v1`. -/
def ensureV1 (u : String) : String :=
  if u.endsWith "/v1" then u
  else if u.endsWith "/" then u ++ "v1"
  else u ++ "/v1"

/-- The employee record `employee_service.get_employee` returns. -/
structure Employee where
  name : String
  prompt : Option String
  skills : Option (List String)
  knowledge_base_ids : Option (List String)
  model : Option String
  industry : Option String
  role : Option String
deriving Repr, DecidableEq

/-- The dict `ChatService._get_employee_config` builds.  The
`knowledge_base_ids` entry collapses an absent key and a stored `None` to
`[]` (all three are falsy at the only use site); `_get_employee_config`
never supplies a `max_iterations` key, so that is `none` here. -/
structure EmployeeConfig where
  name : String
  persona : String
  skills : List String
  temperature : Rat
  max_tokens : Int
  knowledge_base_ids : List String
  max_iterations : Option Nat
deriving Repr, DecidableEq

/-- The fallback persona text used when an employee has no prompt. -/
def defaultPersona : String := "专业的数字员工，为用户提供帮助和服务。"

/-- The fallback skills used when an employee has no skills. -/
def defaultSkills : List String := ["基本对话", "信息提供"]

/-- The tools `chat_service` can attach (only the knowledge tool exists). -/
inductive Tool where
  | knowledgeRetrieval (default_kb_ids : List String)
deriving Repr, DecidableEq

/-- Model of `AgentConfig` dataclass (base_agent.py): note the `max_iterations`
field defaults to 5. -/
structure AgentConfig where
  name : String
  description : String
  system_prompt : String
  temperature : Rat
  max_tokens : Option Int
  tools : List Tool
  max_iterations : Nat
deriving Repr, DecidableEq

/-- The executor `BaseAgent` builds: a plain LLM chain when no
tools are attached, else a ReAct `AgentExecutor` whose iteration bound is
`max_iterations=self.config.max_iterations` (base_agent.py line 195). -/
inductive AgentExecutorModel where
  | llmChain
  | reactExecutor (max_iterations : Nat)
deriving Repr, DecidableEq

def build_agent_executor (config : AgentConfig) : AgentExecutorModel :=
  if config.tools.isEmpty then .llmChain else .reactExecutor config.max_iterations

/-- Model of `DigitalEmployeeAgent`. -/
structure DigitalEmployeeAgent where
  employee_id : String
  config : AgentConfig
  llm : ChatModel
  tools : List Tool
  agent_executor : Option AgentExecutorModel
deriving Repr, DecidableEq

/-- Model of `DigitalEmployeeAgent._build_system_prompt`. -/
def build_system_prompt (name persona : String) (skills : List String) : String :=
  let parts1 := ["你是一个专业的数字员工，名为 " ++ name ++ "。",
                 "你的职责是为用户提供专业的帮助和服务。"]
  let parts2 := if persona != "" then parts1 ++ ["你的个人风格和特点：" ++ persona] else parts1
  let parts3 :=
    if !skills.isEmpty then
      parts2 ++ ["你擅长：" ++ String.intercalate "、" skills ++ "。"]
    else parts2
  let parts4 := parts3 ++
    ["请以友好、专业、有帮助的态度回答用户的问题。",
     "如果用户的问题超出你的能力范围，请诚实地告知用户。",
     "尽量提供详细、准确的回答。",
     "使用中文进行交流，除非用户明确要求使用其他语言。"]
  String.intercalate "\n" parts4

/-- Model of `DigitalEmployeeAgent._create_agent_config`:
`max_iterations=employee_config.get("max_iterations", 5)`. -/
def create_agent_config (employee_id : String) (ec : EmployeeConfig)
    (tools : List Tool) : AgentConfig :=
  { name := "digital_employee_" ++ employee_id,
    description := "数字员工: " ++ ec.name,
    system_prompt := build_system_prompt ec.name ec.persona ec.skills,
    temperature := ec.temperature,
    max_tokens := some ec.max_tokens,
    tools := tools,
    max_iterations := ec.max_iterations.getD 5 }

/-- Model of `DigitalEmployeeAgent.__init__`: builds the config, then initialises
the executor (failures there are caught and merely leave
`agent_executor = None`, so construction itself does not raise). -/
def mk_digital_employee_agent (employee_id : String) (ec : EmployeeConfig)
    (llm : ChatModel) (tools : List Tool) : DigitalEmployeeAgent :=
  let config := create_agent_config employee_id ec tools
  { employee_id := employee_id, config := config, llm := llm, tools := tools,
    agent_executor := some (build_agent_executor config) }

/-- The context dict `_prepare_context` assembles. -/
structure ChatContext where
  conversation_id : String
  employee_id : String
  user_id : Option String
  organization_id : Option String
  user_permissions : List String
  chat_history : List MsgRecord
deriving Repr, DecidableEq

/-- Runtime environment facts: configuration, which optional provider
packages imported, the employee store, the fresh uuid, and the agent
invocation (the LLM round-trip, opaque to the orchestrator). -/
structure Env where
  settings : Settings
  openaiAvailable : Bool
  geminiAvailable : Bool
  employees : String → Option Employee
  fresh_conversation_id : String
  agentInvoke : DigitalEmployeeAgent → String → ChatContext → PyDict

/-- Model of `ModelManager.create_chat_model`: resolves the API key (raising
`ValueError` when absent), then builds the provider-specific client.  The
`ANTHROPIC` branch references the undefined name `ChatAnthropicMessages`
(model_manager.py line 130), which raises `NameError`; `LOCAL` raises
`NotImplementedError`. -/
def create_chat_model (env : Env) (config : ModelConfig) :
    Except PyError ChatModel :=
  let api_key : Option String :=
    if pyStrTruthy config.api_key then config.api_key
    else get_api_key env.settings config.provider
  if !(pyStrTruthy api_key) then
    .error (.valueError "API密钥未配置")
  else
    let k := api_key.getD ""
    match config.provider with
    | .openai =>
      if env.openaiAvailable then .ok (.chatOpenAI config.model_name k config.base_url)
      else .error (.nameError "ChatOpenAI is not defined")
    | .anthropic => .error (.nameError "ChatAnthropicMessages is not defined")
    | .gemini =>
      if env.geminiAvailable then .ok (.chatGoogle config.model_name k)
      else .error (.nameError "ChatGoogleGenerativeAI is not defined")
    | .deepseek =>
      let bu :=
        match config.base_url with
        | some b => b
        | none => env.settings.DEEPSEEK_BASE_URL.getD "https://api.deepseek.com"
      .ok (.chatDeepSeek config.model_name k (ensureV1 bu))
    | .localProvider => .error (.notImplementedError "本地模型支持尚未实现")

/-- Model of `ChatService._get_employee_config`: real employee data when found
(`or`-style fallbacks for prompt and skills), else the default config. -/
def get_employee_config (env : Env) (employee_id : String) : EmployeeConfig :=
  match env.employees employee_id with
  | some e =>
    { name := e.name,
      persona :=
        (match e.prompt with
         | some p => if p == "" then defaultPersona else p
         | none => defaultPersona),
      skills :=
        (match e.skills with
         | some s => if s.isEmpty then defaultSkills else s
         | none => defaultSkills),
      temperature := env.settings.MODEL_TEMPERATURE,
      max_tokens := env.settings.MODEL_MAX_TOKENS,
      knowledge_base_ids := e.knowledge_base_ids.getD [],
      max_iterations := none }
  | none =>
    { name := "员工" ++ employee_id,
      persona := defaultPersona,
      skills := defaultSkills,
      temperature := env.settings.MODEL_TEMPERATURE,
      max_tokens := env.settings.MODEL_MAX_TOKENS,
      knowledge_base_ids := [],
      max_iterations := none }

/-- The per-request model overrides accepted by the orchestrator. -/
structure ModelConfigRequest where
  provider : Option String
  model_name : Option String
  temperature : Option Rat
  max_tokens : Option Int
deriving Repr, DecidableEq

/-- Model of `ChatService._get_or_create_employee_agent`: cache hit returns the
cached agent; otherwise build config, validate, build the chat model,
fetch employee config, attach the knowledge tool when the employee has
knowledge-base ids, construct the agent, and only then cache it.  Any
failure (the `try`/`except` plus the explicit `validate` check) yields
`None` with the cache unchanged. -/
def get_or_create_employee_agent (env : Env)
    (agents : List (String × DigitalEmployeeAgent))
    (employee_id : String) (model_config : Option ModelConfigRequest) :
    Option DigitalEmployeeAgent × List (String × DigitalEmployeeAgent) :=
  match agents.lookup employee_id with
  | some a => (some a, agents)
  | none =>
    let req := model_config.getD
      { provider := none, model_name := none, temperature := none, max_tokens := none }
    match create_model_config_from_request env.settings
        req.provider req.model_name req.temperature req.max_tokens with
    | .error _ => (none, agents)
    | .ok config =>
      if !(validate_model_config env.settings config) then (none, agents)
      else
        match create_chat_model env config with
        | .error _ => (none, agents)
        | .ok chat_model =>
          let employee_config := get_employee_config env employee_id
          let tools : List Tool :=
            if employee_config.knowledge_base_ids.isEmpty then []
            else [.knowledgeRetrieval employee_config.knowledge_base_ids]
          let agent := mk_digital_employee_agent employee_id employee_config
            chat_model tools
          (some agent, setAssoc agents employee_id agent)

/-- Model of `ChatService._prepare_context`: base context from the conversation
info and user context, then the history lookup — whose call passes the
keyword `db` that `get_conversation_history` does not declare. -/
def prepare_context (mem : MemoryState) (info : ConversationInfo)
    (user_context : Option UserContext) : Except PyError ChatContext :=
  let ctx0 : ChatContext :=
    { conversation_id := info.conversation_id,
      employee_id := info.employee_id,
      user_id := user_context.bind (fun uc => uc.user_id),
      organization_id := user_context.bind (fun uc => uc.organization_id),
      user_permissions := (user_context.map (fun uc => uc.permissions)).getD [],
      chat_history := [] }
  if info.conversation_id != "" then
    if pyAcceptsKeywords get_conversation_history_params
        prepare_context_history_call_kwargs then
      .ok { ctx0 with
        chat_history := get_conversation_history mem info.conversation_id (some 10) }
    else
      .error (.typeError "get_conversation_history() got an unexpected keyword argument db")
  else .ok ctx0

/-- Model of `not message or not message.strip()`: true iff the message is empty
or consists entirely of whitespace. -/
def blankMessage (s : String) : Bool :=
  s.data.all (fun c => c.isWhitespace)

/-- Model of `result.get("success", False)` truthiness. -/
def resultSuccess (result : PyDict) : Bool :=
  match dictGet result "success" with
  | some (.bool b) => b
  | _ => false

/-- Model of `result.get("response", "")`. -/
def resultResponse (result : PyDict) : String :=
  match dictGet result "response" with
  | some (.str r) => r
  | _ => ""

/-- Model of `not result.get("conversation_id")`. -/
def resultConversationIdFalsy (result : PyDict) : Bool :=
  match dictGet result "conversation_id" with
  | some (.str c) => c == ""
  | some .pynone => true
  | none => true
  | _ => false

/-- The process-wide mutable state of `ChatService`: the conversation
memory singleton plus the `_employee_agents` cache. -/
structure ChatState where
  memory : MemoryState
  agents : List (String × DigitalEmployeeAgent)
deriving DecidableEq

/-- Model of `ChatService.process_chat_message`.  `now` models `datetime.now()`
and `pt` the elapsed processing time at the point a response is built.
Steps: validate, resolve conversation, resolve agent, prepare context,
invoke the agent, persist on success, stamp `total_processing_time`.
Every exception inside the `try` is caught and turned into
`_create_error_response` with the processing time. -/
def process_chat_message (env : Env) (st : ChatState) (now pt : Nat)
    (message employee_id : String) (conversation_id : Option String)
    (user_context : Option UserContext)
    (model_config : Option ModelConfigRequest) : PyDict × ChatState :=
  if blankMessage message then
    (create_validation_error "消息不能为空" now, st)
  else if employee_id == "" then
    (create_validation_error "员工ID不能为空" now, st)
  else
    match get_or_create_conversation st.memory env.fresh_conversation_id now
        conversation_id employee_id user_context with
    | .error e =>
      (create_error_response "处理聊天消息时发生错误" (some e.message) (some pt) now, st)
    | .ok (info, mem1) =>
      let (agentOpt, agents1) :=
        get_or_create_employee_agent env st.agents employee_id model_config
      let st1 : ChatState := { memory := mem1, agents := agents1 }
      match agentOpt with
      | none => (create_agent_error ("无法创建员工智能体: " ++ employee_id) now, st1)
      | some agent =>
        match prepare_context mem1 info user_context with
        | .error e =>
          (create_error_response "处理聊天消息时发生错误" (some e.message) (some pt) now, st1)
        | .ok ctx =>
          let result := env.agentInvoke agent message ctx
          if resultSuccess result then
            -- message metadata (user_id / message_id / model_info) carries
            -- no orchestration-relevant state and is left empty here
            let mem2 := (add_message mem1 now info.conversation_id "user"
              message (some [])).2
            let mem3 := (add_message mem2 now info.conversation_id "assistant"
              (resultResponse result) (some [])).2
            let result2 :=
              if resultConversationIdFalsy result then
                setAssoc result "conversation_id" (.str info.conversation_id)
              else result
            (setAssoc result2 "total_processing_time" (.int pt),
              { memory := mem3, agents := agents1 })
          else
            (setAssoc result "total_processing_time" (.int pt), st1)

/- ===== concrete environment for C1 / C5 / C7 ===== -/

/-- A deployment configuration with DeepSeek as default provider and no
API keys configured. -/
def settings0 : Settings :=
  { OPENAI_API_KEY := none, ANTHROPIC_API_KEY := none,
    GEMINI_API_KEY := none, DEEPSEEK_API_KEY := none,
    DEEPSEEK_BASE_URL := some "https://api.deepseek.com",
    DEFAULT_MODEL_PROVIDER := .deepseek,
    DEFAULT_MODEL_NAME := "deepseek-chat",
    MODEL_TEMPERATURE := 7/10, MODEL_MAX_TOKENS := 4096 }

def env0 : Env :=
  { settings := settings0, openaiAvailable := true, geminiAvailable := false,
    employees := fun _ => none,
    fresh_conversation_id := "fresh-conv-1",
    agentInvoke := fun _ _ _ => [] }

/-- Chat service state with no conversations and an empty agent cache. -/
def chatSt0 : ChatState := { memory := mgrDefault, agents := [] }

/-- Chat service state where conversation `"c1"` (employee `"emp1"`)
already exists in the memory manager. -/
def chatStKnown : ChatState := { memory := convKnown, agents := [] }

/-- C1: evaluation at the failing input.  Conversation `"c1"` exists and a
valid message/employee is supplied, yet `process_chat_message` neither
reuses nor creates a conversation: `_get_or_create_conversation` passes a
`db` argument that neither `get_conversation_state` (two positional
arguments against one parameter) nor `create_conversation` (unexpected
keyword `db`) accepts, so a `TypeError` is raised and caught, and a
`CHAT_SERVICE_ERROR` envelope is returned with all state unchanged. -/
theorem conversation_resolution_type_error :
    (get_conversation_state chatStKnown.memory "c1").isSome = true
    ∧ pyPositionalOk get_conversation_state_param_count
        get_conversation_state_call_arg_count = false
    ∧ pyAcceptsKeywords create_conversation_params
        chat_service_create_call_kwargs = false
    ∧ dictGet (process_chat_message env0 chatStKnown 9 2 "hello" "emp1"
        (some "c1") none none).1 "success" = some (.bool false)
    ∧ errorField (process_chat_message env0 chatStKnown 9 2 "hello" "emp1"
        (some "c1") none none).1 "code" = some (.str "CHAT_SERVICE_ERROR")
    ∧ (process_chat_message env0 chatStKnown 9 2 "hello" "emp1"
        (some "c1") none none).2 = chatStKnown
    ∧ errorField (process_chat_message env0 chatSt0 9 2 "hello" "emp1"
        none none none).1 "code" = some (.str "CHAT_SERVICE_ERROR")
    ∧ (process_chat_message env0 chatSt0 9 2 "hello" "emp1"
        none none none).2.memory.conversations = [] :=
  ⟨rfl, rfl, rfl, rfl, rfl, rfl, rfl, rfl⟩

/-- C5, counterexample: the validation-failure envelope produced by
`process_chat_message` for an empty message is a failure result with
`success: false` and an error code, but carries no `processing_time`
key (only `_create_error_response` ever adds one). -/
theorem validation_error_missing_processing_time_cex :
    dictGet (process_chat_message env0 chatSt0 7 3 "" "emp1" none none none).1
        "success" = some (.bool false)
    ∧ errorField (process_chat_message env0 chatSt0 7 3 "" "emp1" none none none).1
        "code" = some (.str "VALIDATION_ERROR")
    ∧ dictHasKey (process_chat_message env0 chatSt0 7 3 "" "emp1" none none none).1
        "processing_time" = false :=
  ⟨rfl, rfl, rfl⟩

/-- C5, amended: every failure constructor yields `success: false` with an
`error` object holding `code` and `message`; the validation and agent
error envelopes carry a `timestamp` but no `processing_time`; only the
generic service-error envelope includes `processing_time` (whenever one is
supplied, as `process_chat_message` always does). -/
theorem error_envelopes_shape (msg details : String) (pt now : Nat) :
    (dictGet (create_validation_error msg now) "success" = some (.bool false)
      ∧ errorField (create_validation_error msg now) "code" = some (.str "VALIDATION_ERROR")
      ∧ errorField (create_validation_error msg now) "message" = some (.str msg)
      ∧ dictHasKey (create_validation_error msg now) "timestamp" = true
      ∧ dictHasKey (create_validation_error msg now) "processing_time" = false)
    ∧ (dictGet (create_agent_error msg now) "success" = some (.bool false)
      ∧ errorField (create_agent_error msg now) "code" = some (.str "AGENT_ERROR")
      ∧ errorField (create_agent_error msg now) "message" = some (.str msg)
      ∧ dictHasKey (create_agent_error msg now) "timestamp" = true
      ∧ dictHasKey (create_agent_error msg now) "processing_time" = false)
    ∧ (dictGet (create_error_response msg (some details) (some pt) now) "success"
          = some (.bool false)
      ∧ errorField (create_error_response msg (some details) (some pt) now) "code"
          = some (.str "CHAT_SERVICE_ERROR")
      ∧ errorField (create_error_response msg (some details) (some pt) now) "message"
          = some (.str msg)
      ∧ dictGet (create_error_response msg (some details) (some pt) now) "processing_time"
          = some (.int pt)) :=
  ⟨⟨rfl, rfl, rfl, rfl, rfl⟩, ⟨rfl, rfl, rfl, rfl, rfl⟩, ⟨rfl, rfl, rfl, rfl⟩⟩

/-- C7: evaluation at the failing input.  Building the agent for `"emp1"`
fails (no API key for the default provider) and caches nothing — but
`process_chat_message` never reports the agent-error envelope: the
conversation-resolution `TypeError` fires first, so the caller sees
`CHAT_SERVICE_ERROR`, not `AGENT_ERROR`.  The agent cache does remain
empty. -/
theorem agent_error_envelope_unreachable :
    get_or_create_employee_agent env0 [] "emp1" none = (none, [])
    ∧ errorField (process_chat_message env0 chatStKnown 9 2 "hello" "emp1"
        (some "c1") none none).1 "code" = some (.str "CHAT_SERVICE_ERROR")
    ∧ errorField (process_chat_message env0 chatStKnown 9 2 "hello" "emp1"
        (some "c1") none none).1 "code" ≠ some (.str "AGENT_ERROR")
    ∧ (process_chat_message env0 chatStKnown 9 2 "hello" "emp1"
        (some "c1") none none).2.agents = [] := by
  refine ⟨rfl, rfl, ?_, rfl⟩
  intro h
  rw [show errorField (process_chat_message env0 chatStKnown 9 2 "hello" "emp1"
      (some "c1") none none).1 "code" = some (.str "CHAT_SERVICE_ERROR") from rfl] at h
  simp only [Option.some.injEq, PyVal.str.injEq] at h
  exact absurd h (by decide)

/- ===== C3: the reasoning-loop iteration bound ===== -/

/-- What the model emits in one reasoning-loop iteration. -/
inductive StepOutput where
  | toolCall (query : String)
  | finalAnswer (text : String)
deriving Repr, DecidableEq

/-- The LangChain `AgentExecutor` loop: each iteration is one model call;
a final answer stops the loop, a tool call continues it, and when the
iteration budget is exhausted the executor force-stops and returns
whatever was produced.  Returns the number of model-call iterations
performed. -/
def executorLoop (outputs : Nat → StepOutput) : Nat → Nat → Nat
  | 0, iters => iters
  | fuel + 1, iters =>
    match outputs iters with
    | .finalAnswer _ => iters + 1
    | .toolCall _ => executorLoop outputs fuel (iters + 1)

/-- Iterations performed by an executor configured with
`max_iterations`. -/
def executor_iterations (max_iterations : Nat) (outputs : Nat → StepOutput) : Nat :=
  executorLoop outputs max_iterations 0

theorem executorLoop_le (outputs : Nat → StepOutput) :
    ∀ fuel iters, executorLoop outputs fuel iters ≤ iters + fuel := by
  intro fuel
  induction fuel with
  | zero => intro iters; simp [executorLoop]
  | succ f ih =>
    intro iters
    unfold executorLoop
    cases houts : outputs iters with
    | finalAnswer t =>
      simp only [houts]
      omega
    | toolCall q =>
      have := ih (iters + 1)
      simp only [houts]
      omega

/-- C3, counterexample: an agent built along the orchestration path (the
employee config carries no `max_iterations` key) with the knowledge tool
attached gets an executor bound of 5, not 3, and a run in which the model
keeps emitting tool calls performs 5 model-call iterations — more than 3. -/
theorem iteration_cap_is_five_cex :
    (mk_digital_employee_agent "emp1" (get_employee_config env0 "emp1")
        (.chatDeepSeek "deepseek-chat" "k" "https://api.deepseek.com/v1")
        [.knowledgeRetrieval ["kb1"]]).config.max_iterations = 5
    ∧ build_agent_executor
        (mk_digital_employee_agent "emp1" (get_employee_config env0 "emp1")
          (.chatDeepSeek "deepseek-chat" "k" "https://api.deepseek.com/v1")
          [.knowledgeRetrieval ["kb1"]]).config = .reactExecutor 5
    ∧ executor_iterations 5 (fun _ => .toolCall "q") = 5
    ∧ ¬ (executor_iterations 5 (fun _ => .toolCall "q") ≤ 3) :=
  ⟨rfl, rfl, rfl, by decide⟩

/-- C3, amended: with at least one tool attached the Persona Agent's
executor is a ReAct executor bounded by
`employee_config.get("max_iterations", 5)` — 5 by default, not a hard cap
of 3 — and no run ever performs more model-call iterations than that
bound. -/
theorem reasoning_loop_bounded
    (employee_id : String) (ec : EmployeeConfig) (llm : ChatModel)
    (tools : List Tool) (outputs : Nat → StepOutput)
    (htools : tools ≠ []) :
    build_agent_executor
        (mk_digital_employee_agent employee_id ec llm tools).config
      = .reactExecutor (ec.max_iterations.getD 5)
    ∧ executor_iterations
        ((mk_digital_employee_agent employee_id ec llm tools).config.max_iterations)
        outputs
      ≤ (mk_digital_employee_agent employee_id ec llm tools).config.max_iterations := by
  constructor
  · have hne : tools.isEmpty = false := by
      cases tools with
      | nil => exact absurd rfl htools
      | cons a t => rfl
    simp [build_agent_executor, mk_digital_employee_agent, create_agent_config, hne]
  · have h := executorLoop_le outputs
      ((mk_digital_employee_agent employee_id ec llm tools).config.max_iterations) 0
    simpa [executor_iterations] using h

theorem reasoning_loop_bounded_witness :
    build_agent_executor
        (mk_digital_employee_agent "emp1" (get_employee_config env0 "emp1")
          (.chatDeepSeek "deepseek-chat" "k" "https://api.deepseek.com/v1")
          [.knowledgeRetrieval ["kb1"]]).config
      = .reactExecutor ((get_employee_config env0 "emp1").max_iterations.getD 5)
    ∧ executor_iterations
        ((mk_digital_employee_agent "emp1" (get_employee_config env0 "emp1")
          (.chatDeepSeek "deepseek-chat" "k" "https://api.deepseek.com/v1")
          [.knowledgeRetrieval ["kb1"]]).config.max_iterations)
        (fun _ => .toolCall "q")
      ≤ (mk_digital_employee_agent "emp1" (get_employee_config env0 "emp1")
          (.chatDeepSeek "deepseek-chat" "k" "https://api.deepseek.com/v1")
          [.knowledgeRetrieval ["kb1"]]).config.max_iterations := by
  have h := reasoning_loop_bounded "emp1" (get_employee_config env0 "emp1")
    (.chatDeepSeek "deepseek-chat" "k" "https://api.deepseek.com/v1")
    [.knowledgeRetrieval ["kb1"]] (fun _ => .toolCall "q") (by decide)
  exact ⟨h.1, h.2⟩

/- ===== C8: knowledge_retrieval_tool.py ===== -/

/-- A single-quote character (U+0027), used in the tool's output text. -/
def pyQuote : String := String.singleton (Char.ofNat 39)

/-- A knowledge item row (`serial_no`, `content`). -/
structure KbItem where
  serial_no : Nat
  content : String
deriving Repr, DecidableEq

/-- What fetching one kb_id can come to inside `_async_retrieve`:
the knowledge base is found (with its items), `get_knowledge_base`
returns `None` (nothing is appended), `get_knowledge_base` raises, or the
base is found but `get_knowledge_items` raises. -/
inductive KbOutcome where
  | found (name : String) (doc_count : Nat) (items : List KbItem)
  | notFound
  | fetchError (msg : String)
  | itemsError (name : String) (doc_count : Nat) (msg : String)
deriving Repr, DecidableEq

/-- The inline error note the per-kb `except` branch appends:
`Knowledge Base '{kb_id}': Error - {err}`. -/
def kbErrorNote (kb_id msg : String) : String :=
  "Knowledge Base " ++ pyQuote ++ kb_id ++ pyQuote ++ ": Error - " ++ msg

/-- The header line for a found knowledge base. -/
def kbHeader (name : String) (doc_count : Nat) : String :=
  "Knowledge Base " ++ pyQuote ++ name ++ pyQuote ++ ": Contains "
    ++ toString doc_count ++ " documents"

/-- The result lines one kb_id contributes (the loop body of
`_async_retrieve`): the header plus up to 3 documents when found; nothing
when the base is `None`; the inline error note when the fetch raises;
header then error note when the items fetch raises. -/
def kbNotes (kb_id : String) (o : KbOutcome) : List String :=
  match o with
  | .found name doc_count items =>
    kbHeader name doc_count ::
      (if items.isEmpty then []
       else ("  Available documents: " ++ toString items.length) ::
         (items.take 3).flatMap (fun it =>
           ["  Document " ++ toString it.serial_no ++ ":", "    " ++ it.content]))
  | .notFound => []
  | .fetchError msg => [kbErrorNote kb_id msg]
  | .itemsError name doc_count msg => [kbHeader name doc_count, kbErrorNote kb_id msg]

/-- All result lines of the loop over `kb_ids` (each id paired with the
outcome its lookups produce). -/
def retrieve_notes (kbs : List (String × KbOutcome)) : List String :=
  kbs.flatMap (fun p => kbNotes p.1 p.2)

/-- Model of `_async_retrieve`: returns a fixed string when nothing was collected,
else the framed result text. -/
def async_retrieve (query : String) (kbs : List (String × KbOutcome)) : String :=
  let results := retrieve_notes kbs
  if results.isEmpty then
    "No knowledge bases found or no access to specified knowledge bases."
  else
    "Retrieved information for query " ++ pyQuote ++ query ++ pyQuote ++ ":\n\n"
      ++ String.intercalate "\n" results
      ++ "\n\nPlease use this information to answer the user" ++ pyQuote ++ "s question."

/-- Model of `KnowledgeRetrievalTool._run`: a fixed degenerate string for an empty
`default_kb_ids` list, else `_async_retrieve`. -/
def knowledge_tool_run (query : String) (kbs : List (String × KbOutcome)) : String :=
  if kbs.isEmpty then
    "No knowledge base specified. Cannot retrieve relevant information."
  else async_retrieve query kbs

/-- C8: the retrieval operation is total over its inputs — an empty kb
list yields the fixed degenerate string, and a kb whose fetch fails
contributes exactly its inline error note while every kb after it is
still processed (its notes appear unchanged after the error note). -/
theorem knowledge_retrieval_total (query bad_id msg : String)
    (pre post : List (String × KbOutcome)) :
    knowledge_tool_run query []
        = "No knowledge base specified. Cannot retrieve relevant information."
    ∧ retrieve_notes (pre ++ (bad_id, .fetchError msg) :: post)
        = retrieve_notes pre ++ kbErrorNote bad_id msg :: retrieve_notes post
    ∧ kbErrorNote bad_id msg ∈ retrieve_notes (pre ++ (bad_id, .fetchError msg) :: post) := by
  have hsplit : retrieve_notes (pre ++ (bad_id, KbOutcome.fetchError msg) :: post)
      = retrieve_notes pre ++ kbErrorNote bad_id msg :: retrieve_notes post := by
    simp [retrieve_notes, List.flatMap_append, List.flatMap_cons, kbNotes]
  refine ⟨rfl, hsplit, ?_⟩
  rw [hsplit]
  simp

/- ===== C9: chat_deepseek.py retry_with_backoff ===== -/

/-- The error-message markers that make `retry_with_backoff` give up
immediately (`chat_deepseek.py` lines 47-53 / 89-95). -/
def non_retryable_markers : List String :=
  ["invalid api key", "authentication", "unauthorized", "bad request",
   "invalid request"]

def startsWithList [BEq α] : List α → List α → Bool
  | _, [] => true
  | [], _ :: _ => false
  | a :: as, b :: bs => a == b && startsWithList as bs

/-- Model of `needle in hay` on character lists. -/
def containsList [BEq α] (needle : List α) : List α → Bool
  | [] => needle.isEmpty
  | a :: t => startsWithList (a :: t) needle || containsList needle t

/-- Python `needle in hay` for strings. -/
def strContains (hay needle : String) : Bool :=
  containsList needle.data hay.data

/-- Python `str.lower()`. -/
def pyLower (s : String) : String :=
  String.mk (s.data.map Char.toLower)

/-- Model of `error_str = str(e).lower()` followed by the
`any(err in error_str for err in [...])` check: such errors are never
retried. -/
def is_non_retryable_error (err : String) : Bool :=
  non_retryable_markers.any (fun m => strContains (pyLower err) m)

/-- The sleep before the retry after failed attempt number `attempt`:
`min(base_delay * (2 ** attempt), max_delay)` scaled by the random jitter
factor `0.5 + random()` — `jitter` stands for that `random()` draw. -/
def backoff_delay (base_delay max_delay : Rat) (attempt : Nat) (jitter : Rat) : Rat :=
  (min (base_delay * 2 ^ attempt) max_delay) * (1/2 + jitter)

/-- The `for attempt in range(max_retries)` loop of `retry_with_backoff`
(`sync_wrapper` and `async_wrapper` are the same control flow): run the
wrapped call; on success return; on a non-retryable error, or on the last
attempt, re-raise; otherwise sleep the backoff delay and continue.
`attempts i` is the outcome of attempt number `i`; the result carries the
final outcome, the number of attempts made, and the list of delays slept.
(The `remaining = 0` base case is Python's degenerate `range(0)` loop
followed by `raise last_exception` with `last_exception = None`.) -/
def retry_go {α : Type} (attempts : Nat → Except String α) (jitter : Nat → Rat)
    (base_delay max_delay : Rat) : Nat → Nat → Except String α × Nat × List Rat
  | _, 0 => (.error "TypeError: exceptions must derive from BaseException", 0, [])
  | idx, remaining + 1 =>
    match attempts idx with
    | .ok v => (.ok v, 1, [])
    | .error e =>
      if is_non_retryable_error e then (.error e, 1, [])
      else if remaining == 0 then (.error e, 1, [])
      else
        let d := backoff_delay base_delay max_delay idx (jitter idx)
        let r := retry_go attempts jitter base_delay max_delay (idx + 1) remaining
        (r.1, r.2.1 + 1, d :: r.2.2)

/-- Model of `retry_with_backoff(max_retries, base_delay, max_delay)` applied to a
call whose per-attempt outcomes are `attempts`. -/
def retry_with_backoff {α : Type} (max_retries : Nat)
    (base_delay max_delay : Rat) (attempts : Nat → Except String α)
    (jitter : Nat → Rat) : Except String α × Nat × List Rat :=
  retry_go attempts jitter base_delay max_delay 0 max_retries

/-- The decorator parameters on `ChatDeepSeek._generate` /
`._agenerate`: `@retry_with_backoff(max_retries=3, base_delay=1.0,
max_delay=10.0)`. -/
def chat_deepseek_max_retries : Nat := 3

def chat_deepseek_base_delay : Rat := 1

def chat_deepseek_max_delay : Rat := 10

/-- The retry behaviour of one `ChatDeepSeek._generate` call. -/
def deepseek_generate_retry {α : Type} (attempts : Nat → Except String α)
    (jitter : Nat → Rat) : Except String α × Nat × List Rat :=
  retry_with_backoff chat_deepseek_max_retries chat_deepseek_base_delay
    chat_deepseek_max_delay attempts jitter

theorem retry_go_attempts_le {α : Type} (attempts : Nat → Except String α)
    (jitter : Nat → Rat) (base_delay max_delay : Rat) :
    ∀ remaining idx,
      (retry_go attempts jitter base_delay max_delay idx remaining).2.1 ≤ remaining := by
  intro remaining
  induction remaining with
  | zero => intro idx; simp [retry_go]
  | succ r ih =>
    intro idx
    unfold retry_go
    cases hatt : attempts idx with
    | ok v => simp
    | error e =>
      by_cases hnr : is_non_retryable_error e
      · simp [hnr]
      · by_cases hr : r = 0
        · simp [hnr, hr]
        · have := ih (idx + 1)
          simp only [hnr, hr, if_false, Bool.false_eq_true, ite_false,
            beq_iff_eq, if_neg hr]
          omega

theorem retry_go_attempts_pos {α : Type} (attempts : Nat → Except String α)
    (jitter : Nat → Rat) (base_delay max_delay : Rat) (remaining idx : Nat)
    (hr : 1 ≤ remaining) :
    1 ≤ (retry_go attempts jitter base_delay max_delay idx remaining).2.1 := by
  cases remaining with
  | zero => omega
  | succ r =>
    unfold retry_go
    cases hatt : attempts idx with
    | ok v => simp
    | error e =>
      by_cases hnr : is_non_retryable_error e
      · simp [hnr]
      · by_cases hr0 : r = 0
        · simp [hnr, hr0]
        · simp only [hnr, Bool.false_eq_true, if_false, ite_false, beq_iff_eq, if_neg hr0]
          omega

theorem retry_go_delays {α : Type} (attempts : Nat → Except String α)
    (jitter : Nat → Rat) (base_delay max_delay : Rat) :
    ∀ remaining idx,
      (retry_go attempts jitter base_delay max_delay idx remaining).2.2
        = (List.range ((retry_go attempts jitter base_delay max_delay idx remaining).2.1 - 1)).map
            (fun k => backoff_delay base_delay max_delay (idx + k) (jitter (idx + k))) := by
  intro remaining
  induction remaining with
  | zero => intro idx; simp [retry_go]
  | succ r ih =>
    intro idx
    unfold retry_go
    cases hatt : attempts idx with
    | ok v => simp
    | error e =>
      by_cases hnr : is_non_retryable_error e
      · simp [hnr]
      · by_cases hr0 : r = 0
        · simp [hnr, hr0]
        · have hpos := retry_go_attempts_pos attempts jitter base_delay max_delay
            r (idx + 1) (by omega)
          have hih := ih (idx + 1)
          simp only [hnr, Bool.false_eq_true, if_false, ite_false, beq_iff_eq, if_neg hr0]
          rw [hih]
          obtain ⟨n, hn⟩ : ∃ n, (retry_go attempts jitter base_delay max_delay (idx + 1) r).2.1
              = n + 1 := ⟨_, (Nat.succ_pred_eq_of_pos hpos).symm⟩
          rw [hn]
          simp only [Nat.add_sub_cancel, List.range_succ_eq_map, List.map_cons,
            List.map_map, Nat.add_zero]
          congr 1
          apply List.map_congr_left
          intro k hk
          have hk2 : idx + 1 + k = idx + Nat.succ k := by omega
          simp only [Function.comp_apply, hk2]

theorem retry_go_exhausts {α : Type} (attempts : Nat → Except String α)
    (jitter : Nat → Rat) (base_delay max_delay : Rat) :
    ∀ remaining idx,
      (∀ i, i < remaining →
        ∃ e, attempts (idx + i) = .error e ∧ is_non_retryable_error e = false) →
      (retry_go attempts jitter base_delay max_delay idx remaining).2.1 = remaining := by
  intro remaining
  induction remaining with
  | zero => intro idx _; simp [retry_go]
  | succ r ih =>
    intro idx h
    obtain ⟨e, he, hnr⟩ := h 0 (by omega)
    rw [Nat.add_zero] at he
    unfold retry_go
    rw [he]
    by_cases hr0 : r = 0
    · simp [hnr, hr0]
    · have hrec := ih (idx + 1) (fun i hi => by
        obtain ⟨e2, he2, hnr2⟩ := h (i + 1) (by omega)
        refine ⟨e2, ?_, hnr2⟩
        rw [← he2]
        congr 1
        omega)
      simp only [hnr, Bool.false_eq_true, if_false, ite_false, beq_iff_eq, if_neg hr0]
      omega

/-- C9: the transport's retry loop makes at most `max_retries` attempts
(so at most `max_retries - 1` retries of a failing request); between
consecutive attempts it sleeps exactly the exponential-backoff-with-jitter
delays `min(base * 2^k, max_delay) * (0.5 + random())` in order; a
non-retryable (authentication/validation-class) error on the first attempt
propagates immediately, after exactly one attempt and no sleep; when
every attempt fails transiently the loop really uses all `max_retries`
attempts; and `ChatDeepSeek._generate` is decorated with
`max_retries=3, base_delay=1.0, max_delay=10.0`. -/
theorem deepseek_retry_policy {α : Type} (max_retries : Nat)
    (base_delay max_delay : Rat) (attempts : Nat → Except String α)
    (jitter : Nat → Rat) (e : String) :
    (retry_with_backoff max_retries base_delay max_delay attempts jitter).2.1
        ≤ max_retries
    ∧ (retry_with_backoff max_retries base_delay max_delay attempts jitter).2.2
        = (List.range
            ((retry_with_backoff max_retries base_delay max_delay attempts jitter).2.1
              - 1)).map
            (fun k => backoff_delay base_delay max_delay k (jitter k))
    ∧ (1 ≤ max_retries → attempts 0 = .error e → is_non_retryable_error e = true →
        retry_with_backoff max_retries base_delay max_delay attempts jitter
          = (.error e, 1, []))
    ∧ ((∀ i, i < max_retries →
          ∃ e2, attempts i = .error e2 ∧ is_non_retryable_error e2 = false) →
        (retry_with_backoff max_retries base_delay max_delay attempts jitter).2.1
          = max_retries)
    ∧ deepseek_generate_retry attempts jitter
        = retry_with_backoff 3 1 10 attempts jitter := by
  refine ⟨retry_go_attempts_le attempts jitter base_delay max_delay max_retries 0,
    ?_, ?_, ?_, rfl⟩
  · have h := retry_go_delays attempts jitter base_delay max_delay max_retries 0
    simpa [retry_with_backoff] using h
  · intro hmr hatt hnr
    cases max_retries with
    | zero => omega
    | succ r =>
      unfold retry_with_backoff retry_go
      rw [hatt]
      simp [hnr]
  · intro h
    have := retry_go_exhausts attempts jitter base_delay max_delay max_retries 0
      (fun i hi => by simpa using h i hi)
    exact this

/-- An authentication-class failure, as the DeepSeek transport reports
it: the lowered message contains the marker `unauthorized`. -/
def authAttempts : Nat → Except String Unit :=
  fun _ => .error "DeepSeek API Error: 401 Unauthorized"

/-- A persistent transient failure (5xx-class). -/
def transientAttempts : Nat → Except String Unit :=
  fun _ => .error "DeepSeek API Error: 500 internal server error"

def zeroJitter : Nat → Rat := fun _ => 0

theorem deepseek_retry_policy_witness :
    retry_with_backoff 3 1 10 authAttempts zeroJitter
        = (.error "DeepSeek API Error: 401 Unauthorized", 1, [])
    ∧ (retry_with_backoff 3 1 10 transientAttempts zeroJitter).2.1 = 3
    ∧ (retry_with_backoff 3 1 10 transientAttempts zeroJitter).2.1 ≤ 3 := by
  have h1 := deepseek_retry_policy 3 1 10 authAttempts zeroJitter
    "DeepSeek API Error: 401 Unauthorized"
  have h2 := deepseek_retry_policy 3 1 10 transientAttempts zeroJitter ""
  exact ⟨h1.2.2.1 (by omega) rfl (by decide),
    h2.2.2.2.1 (fun i _ =>
      ⟨"DeepSeek API Error: 500 internal server error", rfl, by decide⟩),
    h2.1⟩
